import Mathlib

set_option maxHeartbeats 1000000

/-!
Shallow embedding of the smart-city repository's authentication core
(app/services/auth_service.py, app/api/dependencies.py) and of its
language-model gateway (app/services/granite_llm.py), together with
theorems settling the specification claims about them.

Stores are embedded as lists of rows, time as a natural-number clock, and
the remote provider as an explicit trace of outcomes consumed by the
gateway; cryptographic primitives (bcrypt, HMAC signing) are embedded as
injective tagged encodings, which preserves exactly the equality tests the
code performs on them.
-/

namespace SmartCity

/-- Modelled from the spec: the server-held signing secret
(`settings.effective_jwt_secret`; the config module is not among the
sources, only its use sites). Only equality of secrets matters to the
signature check, so the concrete value is irrelevant. -/
def SECRET_KEY : String := "server-secret"

/-- Modelled from the spec: the configured token lifetime
(`settings.jwt_expire_minutes`, "ttl configurable, default e.g. 30-60
minutes"). -/
def ACCESS_TOKEN_EXPIRE_MINUTES : Nat := 60

/-- Claims data the callers pass to `create_access_token`: subject id, role
and phone number (the token format of spec section 6). -/
structure TokenData where
  sub : String
  role : String
  phone : String
deriving DecidableEq, Repr

/-- A decoded token payload: the caller data plus the `exp` claim that
`create_access_token` adds before signing. -/
structure Payload where
  sub : String
  role : String
  phone : String
  exp : Nat
deriving DecidableEq, Repr

/-- Embedding of the HMAC signature over a payload: the primitive is
modelled as the pair of the signed payload and the signing secret, so two
signatures agree exactly when payload and secret both agree. -/
def sign (p : Payload) (secret : String) : Payload × String := (p, secret)

/-- A token as `verify_token` receives it: either a string that does not
parse as a token at all, or a payload together with signature bytes. -/
inductive Jwt where
  | malformed (raw : String)
  | signed (payload : Payload) (sig : Payload × String)
deriving DecidableEq, Repr

/-- The effective expiry delta of `create_access_token`:
`expires_delta or timedelta(minutes=ACCESS_TOKEN_EXPIRE_MINUTES)`; both the
absent delta and the falsy zero delta fall back to the configured default. -/
def effectiveTtl (expiresDelta : Option Nat) : Nat :=
  match expiresDelta with
  | none => ACCESS_TOKEN_EXPIRE_MINUTES
  | some d => if d = 0 then ACCESS_TOKEN_EXPIRE_MINUTES else d

/-- AuthService.create_access_token: copy the payload, set
`exp := now + ttl`, and sign with the server secret. -/
def create_access_token (data : TokenData) (expiresDelta : Option Nat) (now : Nat) : Jwt :=
  let p : Payload := { sub := data.sub, role := data.role, phone := data.phone,
                       exp := now + effectiveTtl expiresDelta }
  Jwt.signed p (sign p SECRET_KEY)

/-- AuthService.verify_token: `jwt.decode` succeeds exactly on a payload
whose signature was produced with the server secret and whose `exp` claim
has not passed; every other input (malformed, mis-signed, expired) lands in
the `except JWTError: return None` branch. -/
def verify_token (token : Jwt) (now : Nat) : Option Payload :=
  match token with
  | .malformed _ => none
  | .signed p s => if s = sign p SECRET_KEY ∧ now ≤ p.exp then some p else none

/-- The role enumeration of app/models (`UserType`). -/
inductive UserType where
  | USER
  | AUTHORITY
deriving DecidableEq, Repr

/-- A raw role value as stored on a subject: either a proper `UserType`
member or some other runtime value carried as a string (the gates in
app/api/dependencies.py accept both and coerce). -/
inductive RawRole where
  | typed (t : UserType)
  | raw (s : String)
deriving DecidableEq, Repr

/-- Modelled from the spec: the enum-by-value coercion `UserType(str(v))`.
The `UserType` enumeration itself (app/models) is not among the sources;
the spec fixes the closed enumeration {USER, AUTHORITY}, so a string naming
a member coerces and every other value raises `ValueError`, embedded as
`none`. -/
def parseUserType (s : String) : Option UserType :=
  if s = "user" then some UserType.USER
  else if s = "authority" then some UserType.AUTHORITY
  else none

/-- The role-coercion prologue shared by `require_role` and
`require_any_role`: keep a genuine `UserType`, otherwise try
`UserType(str(value))` and fall back to `none` on `ValueError`. -/
def coerceRole : RawRole → Option UserType
  | .typed t => some t
  | .raw s => parseUserType s

/-- A row of the `users` table with the columns the authentication core
reads or writes. `password_hash` is `none` when the stored value is missing
or not a string (the `isinstance` check in `authenticate_user` treats both
alike). -/
structure Subject where
  id : Nat
  name : String
  phone_number : String
  email : Option String
  password_hash : Option String
  address : Option String
  position : Option String
  feedback_route : Option String
  user_type : RawRole
  is_active : Bool
  is_approved : Bool
  last_login : Option Nat
deriving DecidableEq, Repr

/-- Embedding of `pwd_context.hash` (bcrypt): the primitive is modelled as
a tagged injective encoding of the plaintext, which preserves exactly the
verify relation the service relies on. -/
def get_password_hash (password : String) : String := "bcrypt$" ++ password

/-- Embedding of `pwd_context.verify`: true exactly when the stored hash
was produced from the plaintext. -/
def verify_password (plain hashed : String) : Bool :=
  hashed == get_password_hash plain

/-- The users-table lookup of `authenticate_user`: the first row whose
phone number or email equals the identifier (a SQL NULL email never
matches, hence the `some` comparison). -/
def findByIdentifier (db : List Subject) (identifier : String) : Option Subject :=
  db.find? (fun u => u.phone_number == identifier || u.email == some identifier)

/-- AuthService.authenticate_user over a list-of-rows store: returns the
authenticated subject with `last_login` refreshed together with the updated
store, or `none` with the store untouched. The checks run in the code's
order: lookup, stored-hash shape, password, active flag. -/
def authenticate_user (db : List Subject) (identifier password : String) (now : Nat) :
    Option Subject × List Subject :=
  match findByIdentifier db identifier with
  | none => (none, db)
  | some u =>
    match u.password_hash with
    | none => (none, db)
    | some h =>
      if verify_password password h then
        if u.is_active then
          (some { u with last_login := some now },
           db.map (fun v => if v.id = u.id then { u with last_login := some now } else v))
        else (none, db)
      else (none, db)

/-- Truthiness of the optional email argument in `register_user`
(`if email and ...`): Python treats both `None` and the empty string as
falsy, skipping the duplicate-email lookup. -/
def emailTruthy : Option String → Bool
  | none => false
  | some s => !(s == "")

/-- A registration outcome: the stored subject, or the error message of the
conflict dictionary the service returns instead of raising. -/
inductive RegResult where
  | created (u : Subject)
  | conflict (msg : String)
deriving DecidableEq, Repr

/-- AuthService.register_user over a list-of-rows store; `nextId` stands
for the autoincrement id the store would assign. Duplicate phone, then
duplicate (truthy) email, are rejected with conflict dictionaries; success
appends one row with the hashed password, USER role, and the active and
approved flags set. -/
def register_user (db : List Subject) (nextId : Nat) (name phone_number password : String)
    (email : Option String) (address : Option String) : RegResult × List Subject :=
  if (db.find? (fun u => u.phone_number == phone_number)).isSome then
    (.conflict "Phone number already registered", db)
  else if emailTruthy email && (db.find? (fun u => u.email == email)).isSome then
    (.conflict "Email already registered", db)
  else
    let newU : Subject := {
      id := nextId, name := name, phone_number := phone_number, email := email,
      password_hash := some (get_password_hash password), address := address,
      position := none, feedback_route := none, user_type := .typed .USER,
      is_active := true, is_approved := true, last_login := none }
    (.created newU, db ++ [newU])

/-- AuthService.register_authority: like `register_user` but the email is
mandatory and its duplicate check is unconditional; the stored row carries
the AUTHORITY role, position and feedback route. -/
def register_authority (db : List Subject) (nextId : Nat)
    (name position feedback_route phone_number email password : String) :
    RegResult × List Subject :=
  if (db.find? (fun u => u.phone_number == phone_number)).isSome then
    (.conflict "Phone number already registered", db)
  else if (db.find? (fun u => u.email == some email)).isSome then
    (.conflict "Email already registered", db)
  else
    let newU : Subject := {
      id := nextId, name := name, phone_number := phone_number, email := some email,
      password_hash := some (get_password_hash password), address := none,
      position := some position, feedback_route := some feedback_route,
      user_type := .typed .AUTHORITY,
      is_active := true, is_approved := true, last_login := none }
    (.created newU, db ++ [newU])

/-- Outcome of a request-level dependency: an HTTP error with status and
detail, or the resolved subject. -/
inductive DepResult where
  | httpError (status : Nat) (detail : String)
  | ok (u : Subject)
deriving DecidableEq, Repr

/-- get_current_user (app/api/dependencies.py): bearer credentials, token
verification, the `sub` claim (falsy check, then integer conversion), store
lookup by id, and the active-flag check. -/
def get_current_user (db : List Subject) (credentials : Option Jwt) (now : Nat) : DepResult :=
  match credentials with
  | none => .httpError 401 "Not authenticated"
  | some token =>
    match verify_token token now with
    | none => .httpError 401 "Invalid or expired token"
    | some payload =>
      if payload.sub == "" then .httpError 401 "Invalid token payload"
      else
        match payload.sub.toNat? with
        | none => .httpError 401 "Invalid token subject"
        | some uid =>
          match db.find? (fun u => u.id == uid) with
          | none => .httpError 401 "User inactive or not found"
          | some u =>
            if u.is_active then .ok u
            else .httpError 401 "User inactive or not found"

/-- The checker produced by require_role: the coerced role must equal the
required role exactly, anything else (including an unresolvable role) is
403. -/
def require_role (required : UserType) (current_user : Subject) : DepResult :=
  if coerceRole current_user.user_type = some required then .ok current_user
  else .httpError 403 "Insufficient permissions"

/-- The membership test `current_role not in allowed_roles` with a possibly
unresolved (`None`) role: `None` is never a member. -/
def roleIn (r : Option UserType) (allowed : List UserType) : Bool :=
  match r with
  | none => false
  | some t => allowed.contains t

/-- The checker produced by require_any_role: the guard is
`if allowed_roles and current_role not in allowed_roles`, so an empty
allowed tuple is falsy and the membership test is skipped entirely. -/
def require_any_role (allowed : List UserType) (current_user : Subject) : DepResult :=
  if !allowed.isEmpty && !roleIn (coerceRole current_user.user_type) allowed then
    .httpError 403 "Insufficient permissions"
  else .ok current_user

/-- Clearing a subject's active flag in the store: the environment action
the no-revocation claim compares runs against. -/
def deactivate (db : List Subject) (uid : Nat) : List Subject :=
  db.map (fun u => if u.id = uid then { u with is_active := false } else u)

/-- Token verification as it runs inside a request context: the subject
store is in scope at the call site (get_current_user), but `verify_token`
reads none of it — the dead store argument records exactly that. -/
def verifyTokenInRun (db : List Subject) (token : Jwt) (now : Nat) : Option Payload :=
  verify_token token now

/-- The default Granite model identifier of the gateway module. -/
def DEFAULT_MODEL_ID : String := "ibm/granite-3-8b-instruct"

/-- The fixed fallback ranking of Granite instruct models, most preferred
first. -/
def FALLBACK_MODEL_ORDER : List String :=
  ["ibm/granite-3-8b-instruct",
   "ibm/granite-3-3-8b-instruct",
   "ibm/granite-3-2-8b-instruct",
   "ibm/granite-3-2b-instruct"]

/-- Character-list embedding of the Python substring test `needle in hay`. -/
def occursIn (needle : List Char) : List Char → Bool
  | [] => needle.isEmpty
  | c :: rest => needle.isPrefixOf (c :: rest) || occursIn needle rest

/-- The retryable-rejection detector of `_make_request`:
`status_code == 404 and "model_not_supported" in response_text`. -/
def isModelNotSupported (status : Nat) (body : String) : Bool :=
  status == 404 && occursIn "model_not_supported".toList body.toList

/-- Gateway state: the bearer credential, project id, active model
identifier and last-fetched availability set (GraniteLLM's mutable
fields). -/
structure GW where
  token : Option String
  project_id : String
  model_id : String
  available_models : List String
deriving DecidableEq, Repr

/-- The selection walk at the heart of `_select_supported_model`,
parameterised by the ranking (the code instantiates it with the constant
`FALLBACK_MODEL_ORDER`): keep the current identifier when the availability
set is empty or already contains it; otherwise take the first ranked
candidate present in the set; otherwise leave the identifier unchanged. -/
def selectFromRanking (ranking : List String) (model_id : String) (avail : List String) :
    String :=
  if avail.isEmpty then model_id
  else if avail.contains model_id then model_id
  else
    match ranking.find? (fun c => avail.contains c) with
    | some c => c
    | none => model_id

/-- GraniteLLM._select_supported_model without `force_refresh`: a no-op
when no credential is held. -/
def selectSupportedModel (st : GW) : GW :=
  if st.token.isNone then st
  else { st with
         model_id := selectFromRanking FALLBACK_MODEL_ORDER st.model_id st.available_models }

/-- GraniteLLM._select_supported_model with `force_refresh=True`: still a
no-op without a credential; otherwise replace the availability set with the
re-fetched catalog (supplied by the environment; a failed fetch is the
empty set) and select. -/
def selectSupportedModelForce (st : GW) (newCatalog : List String) : GW :=
  if st.token.isNone then st
  else selectSupportedModel { st with available_models := newCatalog }

/-- GraniteLLM.__init__: exchange the API key for a bearer credential (the
environment supplies the exchange outcome; an empty key skips the request
and yields no credential), fetch the catalog only when a credential was
obtained, then run model selection. `configuredModel` embeds
`settings.watsonx_model_id or DEFAULT_MODEL_ID`. -/
def GWinit (apiKey project_id configuredModel : String) (iamOutcome : Option String)
    (catalog : List String) : GW :=
  let token : Option String := if apiKey == "" then none else iamOutcome
  let model : String := if configuredModel == "" then DEFAULT_MODEL_ID else configuredModel
  let avail : List String := if token.isSome then catalog else []
  selectSupportedModel
    { token := token, project_id := project_id, model_id := model,
      available_models := avail }

/-- One environment outcome for a generation POST: the extracted
`generated_text` on HTTP success, an `HTTPError` with status code and
response body, or any other exception. -/
inductive GenResponse where
  | ok (text : String)
  | httpErr (status : Nat) (body : String)
  | err
deriving DecidableEq, Repr

/-- Result of `_make_request`: the returned text (if any), the gateway
state after the call, the catalog outcomes not yet consumed, and how many
re-selection-and-retry recovery cycles ran. -/
structure ReqResult where
  text : Option String
  state : GW
  refreshesLeft : List (List String)
  retries : Nat
deriving DecidableEq, Repr

/-- GraniteLLM._make_request run against an environment trace: `rs` lists
the outcome of each successive generation POST and `fs` the catalog
returned by each successive forced refresh (an exhausted trace stands for a
failing call). Missing credential or project id fail fast with `none`. On a
404 whose body contains "model_not_supported" the code force-refreshes and
re-selects, returns `none` when the identifier did not change, and
otherwise re-enters itself — so a retried call is handled by the very same
logic, recovery cycles included. -/
def make_request (prompt : String) (maxTokens : Nat) :
    GW → List GenResponse → List (List String) → ReqResult
  | st, rs, fs =>
    if st.token.isNone then ⟨none, st, fs, 0⟩
    else if st.project_id == "" then ⟨none, st, fs, 0⟩
    else
      match rs with
      | [] => ⟨none, st, fs, 0⟩
      | .ok t :: _ => ⟨some t, st, fs, 0⟩
      | .err :: _ => ⟨none, st, fs, 0⟩
      | .httpErr status body :: rest =>
        if isModelNotSupported status body then
          let st2 := selectSupportedModelForce st (fs.headD [])
          if st2.model_id == st.model_id then ⟨none, st2, fs.tail, 0⟩
          else
            let r := make_request prompt maxTokens st2 rest fs.tail
            ⟨r.text, r.state, r.refreshesLeft, r.retries + 1⟩
        else ⟨none, st, fs, 0⟩

/-- Detector for the responses that trigger the recovery path. -/
def isMNSResponse : GenResponse → Bool
  | .httpErr status body => isModelNotSupported status body
  | _ => false

/-- Python `response or fallback` on an optional string: `None` and the
empty string are both falsy and yield the fallback. -/
def orElseStr (response : Option String) (fallback : String) : String :=
  match response with
  | none => fallback
  | some t => if t == "" then fallback else t

/-- The prompt template of GraniteLLM.ask_granite. -/
def askPrompt (prompt : String) : String :=
  "You are a helpful assistant for a smart city platform. \n        Provide informative, concise answers about urban sustainability, governance, and smart city technologies.\n\nUser: "
    ++ prompt ++ "\nAssistant:"

/-- The canned fallback of ask_granite. -/
def askFallback : String := "I'm sorry, I couldn't process your request at the moment."

/-- GraniteLLM.ask_granite: template the prompt, delegate to
`_make_request` with the default token budget, and substitute the canned
fallback for a falsy outcome. -/
def ask_granite (st : GW) (prompt : String) (rs : List GenResponse)
    (fs : List (List String)) : String :=
  orElseStr (make_request (askPrompt prompt) 500 st rs fs).text askFallback

/-- The prompt template of GraniteLLM.generate_summary. -/
def summaryPrompt (text : String) : String :=
  "Summarize the following policy document in a clear, citizen-friendly format:\n\n"
    ++ text ++ "\n\nSummary:"

/-- The canned fallback of generate_summary. -/
def summaryFallback : String := "Unable to generate summary."

/-- GraniteLLM.generate_summary: template, delegate with max_tokens=300,
substitute the canned fallback for a falsy outcome. -/
def generate_summary (st : GW) (text : String) (rs : List GenResponse)
    (fs : List (List String)) : String :=
  orElseStr (make_request (summaryPrompt text) 300 st rs fs).text summaryFallback

/-- The prompt template of GraniteLLM.generate_eco_tip. -/
def ecoTipPrompt (topic : String) : String :=
  "Generate 3 practical, actionable eco-friendly tips related to \"" ++ topic
    ++ "\" for city residents:\n\nTips:"

/-- The canned fallback of generate_eco_tip, templated on the topic. -/
def ecoTipFallback (topic : String) : String :=
  "Here are some general tips for " ++ topic
    ++ ": reduce consumption, reuse materials, and recycle properly."

/-- GraniteLLM.generate_eco_tip: template, delegate with max_tokens=200,
substitute the topic-templated canned fallback for a falsy outcome. -/
def generate_eco_tip (st : GW) (topic : String) (rs : List GenResponse)
    (fs : List (List String)) : String :=
  orElseStr (make_request (ecoTipPrompt topic) 200 st rs fs).text (ecoTipFallback topic)

/-- A seeded active citizen used in concrete instantiations. -/
def alice : Subject := {
  id := 1, name := "Alice", phone_number := "555-0100",
  email := some "alice@example.com",
  password_hash := some (get_password_hash "secret"), address := none,
  position := none, feedback_route := none, user_type := .typed .USER,
  is_active := true, is_approved := true, last_login := none }

/-- A stored subject whose email column holds the empty string. -/
def emptyEmailSubject : Subject := {
  id := 1, name := "E", phone_number := "555-0001", email := some "",
  password_hash := some (get_password_hash "pw"), address := none,
  position := none, feedback_route := none, user_type := .typed .USER,
  is_active := true, is_approved := true, last_login := none }

/-- The row a second empty-string-email registration writes next to
`emptyEmailSubject`. -/
def dupEmailRow : Subject := {
  id := 2, name := "F", phone_number := "555-0002", email := some "",
  password_hash := some (get_password_hash "pw2"), address := none,
  position := none, feedback_route := none, user_type := .typed .USER,
  is_active := true, is_approved := true, last_login := none }

/-- A subject whose stored role value lies outside the enumeration. -/
def ghostSubject : Subject := {
  id := 9, name := "G", phone_number := "555-0009", email := none,
  password_hash := none, address := none,
  position := none, feedback_route := none, user_type := .raw "ghost",
  is_active := true, is_approved := true, last_login := none }

/-- Gateway state as initialised with a live credential, a project id and
the default Granite model, the initial catalog listing exactly that
model. -/
def gwLive : GW := GWinit "api-key" "proj-1" "ibm/granite-3-8b-instruct" (some "iam-token")
  ["ibm/granite-3-8b-instruct"]

/-- The model-not-supported rejection the provider sends. -/
def mnsResponse : GenResponse := GenResponse.httpErr 404 "model_not_supported"

/-- C3: for every claims payload and every ttl, verifying a token
immediately after issuing it succeeds and returns exactly the input claims
(together with the `exp` claim the signer added), and once the current time
exceeds the issuance time plus the effective ttl, verifying the same token
returns the invalid outcome. -/
theorem c3_token_roundtrip (d : TokenData) (delta : Option Nat) (t now : Nat) :
    verify_token (create_access_token d delta t) t
      = some { sub := d.sub, role := d.role, phone := d.phone,
               exp := t + effectiveTtl delta }
    ∧ (t + effectiveTtl delta < now →
        verify_token (create_access_token d delta t) now = none) := by
  constructor
  · simp [verify_token, create_access_token, sign]
  · intro h
    simp only [verify_token, create_access_token, sign]
    rw [if_neg]
    intro hc
    exact absurd hc.2 (by omega)

/-- C3 witness at a concrete payload, ttl and pair of observation times. -/
theorem c3_token_roundtrip_witness :
    verify_token (create_access_token ⟨"7", "user", "555-0100"⟩ (some 5) 100) 100
      = some { sub := "7", role := "user", phone := "555-0100",
               exp := 100 + effectiveTtl (some 5) }
    ∧ verify_token (create_access_token ⟨"7", "user", "555-0100"⟩ (some 5) 100) 106 = none :=
  ⟨(c3_token_roundtrip ⟨"7", "user", "555-0100"⟩ (some 5) 100 106).1,
   (c3_token_roundtrip ⟨"7", "user", "555-0100"⟩ (some 5) 100 106).2 (by decide)⟩

/-- C8: verify_token is a total function of the token — it returns the
invalid outcome `none` rather than raising on every malformed, mis-signed
or expired input — and it returns a claims payload exactly on tokens signed
with the server secret whose expiry has not passed. -/
theorem c8_verify_token_characterisation (token : Jwt) (now : Nat) :
    (∃ p, verify_token token now = some p)
      ↔ ∃ p, token = Jwt.signed p (sign p SECRET_KEY) ∧ now ≤ p.exp := by
  cases token with
  | malformed raw => simp [verify_token]
  | signed p s =>
    constructor
    · rintro ⟨q, hq⟩
      simp only [verify_token] at hq
      by_cases hc : s = sign p SECRET_KEY ∧ now ≤ p.exp
      · exact ⟨p, by rw [hc.1], hc.2⟩
      · rw [if_neg hc] at hq
        exact absurd hq (by simp)
    · rintro ⟨q, hq, hle⟩
      injection hq with h1 h2
      subst h1
      subst h2
      exact ⟨p, by simp [verify_token, hle]⟩

/-- C9: token verification reads nothing from the subject store, so for an
issued, unexpired token its outcome is the same claims payload in a run
where the subject is active and in a run where the subject has been
deactivated — deactivation does not invalidate the token before expiry. -/
theorem c9_deactivation_does_not_revoke (db : List Subject) (uid : Nat)
    (d : TokenData) (delta : Option Nat) (t now : Nat)
    (h : now ≤ t + effectiveTtl delta) :
    verifyTokenInRun db (create_access_token d delta t) now
      = some { sub := d.sub, role := d.role, phone := d.phone,
               exp := t + effectiveTtl delta }
    ∧ verifyTokenInRun (deactivate db uid) (create_access_token d delta t) now
      = verifyTokenInRun db (create_access_token d delta t) now := by
  refine ⟨?_, rfl⟩
  simp [verifyTokenInRun, verify_token, create_access_token, sign, h]

/-- C9 witness: a concrete store, subject and unexpired token. -/
theorem c9_deactivation_witness :
    verifyTokenInRun [alice] (create_access_token ⟨"1", "user", "555-0100"⟩ (some 30) 0) 10
      = some { sub := "1", role := "user", phone := "555-0100",
               exp := 0 + effectiveTtl (some 30) }
    ∧ verifyTokenInRun (deactivate [alice] 1)
        (create_access_token ⟨"1", "user", "555-0100"⟩ (some 30) 0) 10
      = verifyTokenInRun [alice] (create_access_token ⟨"1", "user", "555-0100"⟩ (some 30) 0) 10 :=
  c9_deactivation_does_not_revoke [alice] 1 ⟨"1", "user", "555-0100"⟩ (some 30) 0 10 (by decide)

/-- C10: the multi-role gate built from the empty allowed set skips its
membership test entirely, so it returns every authenticated subject —
whatever the subject's role — and never the forbidden outcome. -/
theorem c10_empty_allowed_set_allows_all (u : Subject) :
    require_any_role [] u = DepResult.ok u := rfl

/-- C4: authenticate_user looks the subject up by phone-or-email equality
and returns the invalid outcome exactly when no subject matches, the stored
hash is missing or malformed, the password does not verify, or the subject
is inactive; on success it returns the subject with `last_login` refreshed
and writes that update to the store, and on failure the store is
untouched. -/
theorem c4_authenticate_spec (db : List Subject) (identifier password : String) (now : Nat) :
    ((authenticate_user db identifier password now).1 = none ↔
      findByIdentifier db identifier = none ∨
      ∃ u, findByIdentifier db identifier = some u ∧
        (u.password_hash = none ∨
         (∃ hs, u.password_hash = some hs ∧ verify_password password hs = false) ∨
         (∃ hs, u.password_hash = some hs ∧ verify_password password hs = true ∧
            u.is_active = false)))
    ∧ (∀ u hs, findByIdentifier db identifier = some u → u.password_hash = some hs →
        verify_password password hs = true → u.is_active = true →
        authenticate_user db identifier password now
          = (some { u with last_login := some now },
             db.map (fun v => if v.id = u.id then { u with last_login := some now } else v)))
    ∧ ((authenticate_user db identifier password now).1 = none →
        (authenticate_user db identifier password now).2 = db) := by
  rcases hf : findByIdentifier db identifier with _ | u
  · have hEq : authenticate_user db identifier password now = (none, db) := by
      simp [authenticate_user, hf]
    rw [hEq]
    refine ⟨⟨fun _ => Or.inl rfl, fun _ => rfl⟩, ?_, fun _ => rfl⟩
    intro v hs hveq
    exact Option.noConfusion hveq
  · rcases hp : u.password_hash with _ | hs
    · have hEq : authenticate_user db identifier password now = (none, db) := by
        simp [authenticate_user, hf, hp]
      rw [hEq]
      refine ⟨⟨fun _ => Or.inr ⟨u, rfl, Or.inl hp⟩, fun _ => rfl⟩, ?_, fun _ => rfl⟩
      intro v hs2 hveq hpv
      injection hveq with hveq
      subst hveq
      rw [hp] at hpv
      exact Option.noConfusion hpv
    · by_cases hv : verify_password password hs = true
      · by_cases ha : u.is_active = true
        · have hEq : authenticate_user db identifier password now
              = (some { u with last_login := some now },
                 db.map (fun v =>
                   if v.id = u.id then { u with last_login := some now } else v)) := by
            simp [authenticate_user, hf, hp, hv, ha]
          rw [hEq]
          refine ⟨?_, ?_, ?_⟩
          · constructor
            · intro h
              simp at h
            · rintro (h | ⟨w, hw, hcase⟩)
              · exact Option.noConfusion h
              · injection hw with hw
                subst hw
                rcases hcase with h1 | ⟨hs2, h1, h2⟩ | ⟨hs2, h1, h2, h3⟩
                · rw [hp] at h1
                  exact Option.noConfusion h1
                · rw [hp] at h1
                  injection h1 with h1
                  subst h1
                  rw [hv] at h2
                  exact Bool.noConfusion h2
                · rw [ha] at h3
                  exact Bool.noConfusion h3
          · intro v hs2 hveq hpv hvv hav
            injection hveq with hveq
            subst hveq
            rfl
          · intro h
            simp at h
        · have ha2 : u.is_active = false := by
            cases hb : u.is_active
            · rfl
            · exact absurd hb ha
          have hEq : authenticate_user db identifier password now = (none, db) := by
            simp [authenticate_user, hf, hp, hv, ha2]
          rw [hEq]
          refine ⟨⟨fun _ => Or.inr ⟨u, rfl, Or.inr (Or.inr ⟨hs, hp, hv, ha2⟩)⟩,
                  fun _ => rfl⟩, ?_, fun _ => rfl⟩
          intro v hs2 hveq hpv hvv hav
          injection hveq with hveq
          subst hveq
          rw [ha2] at hav
          exact Bool.noConfusion hav
      · have hv2 : verify_password password hs = false := by
          cases hb : verify_password password hs
          · rfl
          · exact absurd hb hv
        have hEq : authenticate_user db identifier password now = (none, db) := by
          simp [authenticate_user, hf, hp, hv2]
        rw [hEq]
        refine ⟨⟨fun _ => Or.inr ⟨u, rfl, Or.inr (Or.inl ⟨hs, hp, hv2⟩)⟩,
                fun _ => rfl⟩, ?_, fun _ => rfl⟩
        intro v hs2 hveq hpv hvv hav
        injection hveq with hveq
        subst hveq
        rw [hp] at hpv
        injection hpv with hpv
        subst hpv
        rw [hv2] at hvv
        exact Bool.noConfusion hvv

/-- C4 witness: the seeded subject authenticates with the correct password
and the store receives the refreshed last-login row. -/
theorem c4_authenticate_witness :
    authenticate_user [alice] "555-0100" "secret" 42
      = (some { alice with last_login := some 42 },
         [alice].map (fun v =>
           if v.id = alice.id then { alice with last_login := some 42 } else v)) :=
  (c4_authenticate_spec [alice] "555-0100" "secret" 42).2.1 alice (get_password_hash "secret")
    (by decide) rfl (by decide) rfl

/-- C5 (amended): a registration whose phone number is already stored, and
one that supplies a NON-EMPTY email already stored, each return a conflict
outcome with the store unchanged; when neither check fires exactly one new
row is appended, carrying the hashed password and the active flag; a row
created by a successful registration makes any later registration with the
same phone number conflict without a write, so registering the same subject
twice never creates two rows. Authority registration checks its mandatory
email unconditionally. (The code skips the duplicate-email lookup for an
empty-string email, so the claim's unrestricted email clause fails — see the
counterexample.) -/
theorem c5_register_spec (db : List Subject) (nextId : Nat)
    (name phone password : String) (email : Option String) (address : Option String) :
    ((db.find? (fun u => u.phone_number == phone)).isSome = true →
      register_user db nextId name phone password email address
        = (.conflict "Phone number already registered", db))
    ∧ (∀ e, e ≠ "" → email = some e →
        (db.find? (fun u => u.phone_number == phone)).isSome = false →
        (db.find? (fun u => u.email == some e)).isSome = true →
        register_user db nextId name phone password email address
          = (.conflict "Email already registered", db))
    ∧ ((db.find? (fun u => u.phone_number == phone)).isSome = false →
        (emailTruthy email && (db.find? (fun u => u.email == email)).isSome) = false →
        ∃ newU, register_user db nextId name phone password email address
            = (.created newU, db ++ [newU])
          ∧ newU.password_hash = some (get_password_hash password)
          ∧ newU.is_active = true ∧ newU.phone_number = phone)
    ∧ (∀ u db2, register_user db nextId name phone password email address
          = (.created u, db2) →
        ∀ n2 nm2 pw2 em2 ad2, register_user db2 n2 nm2 phone pw2 em2 ad2
          = (.conflict "Phone number already registered", db2))
    ∧ (∀ pos route em2 pw2,
        ((db.find? (fun u => u.phone_number == phone)).isSome = true →
          register_authority db nextId name pos route phone em2 pw2
            = (.conflict "Phone number already registered", db))
        ∧ ((db.find? (fun u => u.phone_number == phone)).isSome = false →
            (db.find? (fun u => u.email == some em2)).isSome = true →
            register_authority db nextId name pos route phone em2 pw2
              = (.conflict "Email already registered", db))) := by
  refine ⟨?_, ?_, ?_, ?_, ?_⟩
  · intro hph
    simp [register_user, hph]
  · intro e he hem hph hfind
    subst hem
    have hne : (e == "") = false := by
      cases hb : e == ""
      · rfl
      · exact absurd (by simpa using hb) he
    simp [register_user, hph, hfind, emailTruthy, hne]
  · intro hph hcond
    simp only [register_user, hph, hcond, Bool.false_eq_true, if_false]
    exact ⟨_, rfl, rfl, rfl, rfl⟩
  · intro u db2 hreg n2 nm2 pw2 em2 ad2
    by_cases hph : (db.find? (fun v => v.phone_number == phone)).isSome = true
    · rw [(by simp [register_user, hph] :
        register_user db nextId name phone password email address
          = (.conflict "Phone number already registered", db))] at hreg
      exact RegResult.noConfusion (congrArg Prod.fst hreg)
    · have hph2 : (db.find? (fun v => v.phone_number == phone)).isSome = false := by
        cases hb : (db.find? (fun v => v.phone_number == phone)).isSome
        · rfl
        · exact absurd hb hph
      by_cases hcond : (emailTruthy email
          && (db.find? (fun v => v.email == email)).isSome) = true
      · rw [(by simp only [register_user, hph2, Bool.false_eq_true, if_false, hcond, if_true] :
          register_user db nextId name phone password email address
            = (.conflict "Email already registered", db))] at hreg
        exact RegResult.noConfusion (congrArg Prod.fst hreg)
      · have hcond2 : (emailTruthy email
            && (db.find? (fun v => v.email == email)).isSome) = false := by
          cases hb : emailTruthy email && (db.find? (fun v => v.email == email)).isSome
          · rfl
          · exact absurd hb hcond
        simp only [register_user, hph2, hcond2, Bool.false_eq_true, if_false] at hreg
        have hdb2 : db2 = db ++ [{
            id := nextId, name := name, phone_number := phone, email := email,
            password_hash := some (get_password_hash password), address := address,
            position := none, feedback_route := none, user_type := .typed .USER,
            is_active := true, is_approved := true, last_login := none }] :=
          (congrArg Prod.snd hreg).symm
        have hfound : (db2.find? (fun v => v.phone_number == phone)).isSome = true := by
          rw [hdb2, List.find?_append]
          have : (db.find? (fun v => v.phone_number == phone)) = none :=
            Option.not_isSome_iff_eq_none.mp (by rw [hph2]; exact Bool.noConfusion)
          rw [this]
          simp [List.find?]
        simp [register_user, hfound]
  · intro pos route em2 pw2
    constructor
    · intro hph
      simp [register_authority, hph]
    · intro hph hfind
      simp [register_authority, hph, hfind]

/-- C5 witness: a second registration reusing the seeded subject's phone
number conflicts and leaves the store unchanged. -/
theorem c5_register_witness :
    register_user [alice] 2 "Bob" "555-0100" "pw" none none
      = (.conflict "Phone number already registered", [alice]) :=
  (c5_register_spec [alice] 2 "Bob" "555-0100" "pw" none none).1 (by decide)

/-- C5 counterexample: the store already holds a subject whose email is the
empty string, and a registration supplying that same email is accepted and
writes a second row — the claim demands a conflict outcome and no write for
every already-held supplied email. -/
theorem c5_register_counterexample :
    emptyEmailSubject.email = some ""
    ∧ register_user [emptyEmailSubject] 2 "F" "555-0002" "pw2" (some "") none
        = (.created dupEmailRow, [emptyEmailSubject, dupEmailRow]) := by
  decide

/-- C6 (amended): the single-role gate allows a subject exactly when the
coerced role equals the required role and otherwise returns the forbidden
outcome (in particular denying USER and allowing AUTHORITY where AUTHORITY
is required); a multi-role gate with a NONEMPTY allowed set allows exactly
the subjects whose coerced role is a member, so {USER, AUTHORITY} allows
both roles; a subject whose role value lies outside the closed enumeration
is denied — with a forbidden outcome, not a crash — by the single-role gate
and by every nonempty multi-role gate. The empty multi-role gate instead
skips the check (see the counterexample and C10). -/
theorem c6_role_gates (u : Subject) (required : UserType) (allowed : List UserType) :
    (require_role required u = DepResult.ok u ↔ coerceRole u.user_type = some required)
    ∧ (require_role required u = DepResult.ok u
        ∨ require_role required u = DepResult.httpError 403 "Insufficient permissions")
    ∧ (u.user_type = RawRole.typed UserType.USER →
        require_role UserType.AUTHORITY u
          = DepResult.httpError 403 "Insufficient permissions")
    ∧ (u.user_type = RawRole.typed UserType.AUTHORITY →
        require_role UserType.AUTHORITY u = DepResult.ok u)
    ∧ (allowed ≠ [] →
        (require_any_role allowed u = DepResult.ok u
          ↔ roleIn (coerceRole u.user_type) allowed = true))
    ∧ ((u.user_type = RawRole.typed UserType.USER
          ∨ u.user_type = RawRole.typed UserType.AUTHORITY) →
        require_any_role [UserType.USER, UserType.AUTHORITY] u = DepResult.ok u)
    ∧ (coerceRole u.user_type = none →
        require_role required u = DepResult.httpError 403 "Insufficient permissions"
        ∧ (allowed ≠ [] →
            require_any_role allowed u
              = DepResult.httpError 403 "Insufficient permissions")) := by
  refine ⟨?_, ?_, ?_, ?_, ?_, ?_, ?_⟩
  · constructor
    · intro h
      by_cases hc : coerceRole u.user_type = some required
      · exact hc
      · simp [require_role, hc] at h
    · intro hc
      simp [require_role, hc]
  · by_cases hc : coerceRole u.user_type = some required
    · exact Or.inl (by simp [require_role, hc])
    · exact Or.inr (by simp [require_role, hc])
  · intro ht
    simp [require_role, coerceRole, ht]
  · intro ht
    simp [require_role, coerceRole, ht]
  · intro hne
    have hae : allowed.isEmpty = false := by
      cases allowed with
      | nil => exact absurd rfl hne
      | cons a as => rfl
    constructor
    · intro h
      by_cases hr : roleIn (coerceRole u.user_type) allowed = true
      · exact hr
      · have hr2 : roleIn (coerceRole u.user_type) allowed = false := by
          cases hb : roleIn (coerceRole u.user_type) allowed
          · rfl
          · exact absurd hb hr
        simp [require_any_role, hae, hr2] at h
    · intro hr
      simp [require_any_role, hae, hr]
  · rintro (ht | ht) <;> simp [require_any_role, roleIn, coerceRole, ht]
  · intro hc
    refine ⟨by simp [require_role, hc], fun hne => ?_⟩
    have hae : allowed.isEmpty = false := by
      cases allowed with
      | nil => exact absurd rfl hne
      | cons a as => rfl
    simp [require_any_role, roleIn, hc, hae]

/-- C6 witness: the seeded USER subject is denied by the AUTHORITY gate and
allowed by the {USER, AUTHORITY} gate. -/
theorem c6_role_gates_witness :
    require_role UserType.AUTHORITY alice
      = DepResult.httpError 403 "Insufficient permissions"
    ∧ require_any_role [UserType.USER, UserType.AUTHORITY] alice = DepResult.ok alice :=
  ⟨(c6_role_gates alice UserType.AUTHORITY []).2.2.1 rfl,
   (c6_role_gates alice UserType.AUTHORITY []).2.2.2.2.2.1 (Or.inl rfl)⟩

/-- C6 counterexample: a subject whose role value lies outside the closed
enumeration is allowed — not forbidden — by the multi-role gate built from
the empty allowed set, against the claim that both gates return forbidden
for every out-of-enumeration role and that the multi-role gate allows
exactly the members of the allowed set. -/
theorem c6_role_gates_counterexample :
    parseUserType "ghost" = none
    ∧ ghostSubject.user_type = RawRole.raw "ghost"
    ∧ require_any_role [] ghostSubject = DepResult.ok ghostSubject := by
  decide

/-- C2 (amended): after selection runs, the active identifier is the
CURRENT identifier whenever the availability set is empty or contains it;
otherwise the first ranked candidate present in the set; otherwise it is
left unchanged. At initialization the current identifier is the configured
one, so the claim's invariant holds there, and the claim's concrete
instance selects "m2"; but a forced refresh compares the set against the
identifier selected last time, not the configured preferred one (see the
counterexample). -/
theorem c2_model_selection (ranking : List String) (current : String) (avail : List String) :
    (avail = [] → selectFromRanking ranking current avail = current)
    ∧ (avail.contains current = true → selectFromRanking ranking current avail = current)
    ∧ (avail ≠ [] → avail.contains current = false →
        selectFromRanking ranking current avail
          = (ranking.find? (fun c => avail.contains c)).getD current)
    ∧ selectFromRanking ["m1", "m2", "m3"] "m1" ["m2", "m3"] = "m2"
    ∧ (∀ (apiKey project cfg iamTok : String) (catalog : List String),
        apiKey ≠ "" → cfg ≠ "" →
        (GWinit apiKey project cfg (some iamTok) catalog).model_id
          = selectFromRanking FALLBACK_MODEL_ORDER cfg catalog) := by
  refine ⟨?_, ?_, ?_, by decide, ?_⟩
  · intro h
    subst h
    rfl
  · intro h
    have hie : avail.isEmpty = false := by
      cases avail with
      | nil => exact Bool.noConfusion h
      | cons a as => rfl
    unfold selectFromRanking
    rw [if_neg (by simp [hie]), if_pos h]
  · intro hne hnc
    have hie : avail.isEmpty = false := by
      cases avail with
      | nil => exact absurd rfl hne
      | cons a as => rfl
    unfold selectFromRanking
    rw [if_neg (by simp [hie]), if_neg (by rw [hnc]; exact fun hx => Bool.noConfusion hx)]
    cases hfind : ranking.find? (fun c => avail.contains c) with
    | none => rfl
    | some c => rfl
  · intro apiKey project cfg iamTok catalog hak hcfg
    have hak2 : (apiKey == "") = false := by
      cases hb : apiKey == ""
      · rfl
      · exact absurd (by simpa using hb) hak
    have hcfg2 : (cfg == "") = false := by
      cases hb : cfg == ""
      · rfl
      · exact absurd (by simpa using hb) hcfg
    simp [GWinit, selectSupportedModel, hak2, hcfg2]

/-- C2 witness: the concrete walk of the third branch at the claim's
instance — set nonempty, current identifier absent, first ranked member
present selected. -/
theorem c2_model_selection_witness :
    selectFromRanking ["m1", "m2", "m3"] "m1" ["m2", "m3"]
      = ((["m1", "m2", "m3"] : List String).find?
          (fun c => (["m2", "m3"] : List String).contains c)).getD "m1" :=
  (c2_model_selection ["m1", "m2", "m3"] "m1" ["m2", "m3"]).2.2.1 (by decide) (by decide)

/-- C2 counterexample: starting from the configured preferred model, one
recovery moves the gateway to a fallback; the next forced refresh returns a
catalog that again contains the configured preferred identifier, yet
selection keeps the fallback — so after that refresh the active identifier
is neither the configured preferred one (though available) nor selected by
ranking order. -/
theorem c2_model_selection_counterexample :
    gwLive.model_id = "ibm/granite-3-8b-instruct"
    ∧ (make_request "p" 500 gwLive [mnsResponse, mnsResponse]
        [["ibm/granite-3-3-8b-instruct"],
         ["ibm/granite-3-8b-instruct", "ibm/granite-3-3-8b-instruct"]]).state.model_id
      = "ibm/granite-3-3-8b-instruct"
    ∧ ((make_request "p" 500 gwLive [mnsResponse, mnsResponse]
        [["ibm/granite-3-3-8b-instruct"],
         ["ibm/granite-3-8b-instruct",
          "ibm/granite-3-3-8b-instruct"]]).state.available_models.contains
        "ibm/granite-3-8b-instruct") = true := by
  decide

/-- C1 (amended): each model-not-supported rejection triggers one recovery
cycle — refresh the availability set, re-select, return the none outcome
without retrying when the identifier did not change, retry exactly once for
that rejection when it did — and the retry re-enters the same handler, so
the number of recovery cycles in one caller-initiated call is bounded by
the number of model-not-supported rejections received, not by one. -/
theorem c1_recovery_contract (prompt : String) (mt : Nat) :
    (∀ (rs : List GenResponse) (st : GW) (fs : List (List String)),
        (make_request prompt mt st rs fs).retries ≤ rs.countP isMNSResponse)
    ∧ (∀ (st : GW) (status : Nat) (body : String) (rest : List GenResponse)
          (fs : List (List String)),
        st.token.isNone = false → (st.project_id == "") = false →
        isModelNotSupported status body = true →
        (((selectSupportedModelForce st (fs.headD [])).model_id = st.model_id →
            make_request prompt mt st (GenResponse.httpErr status body :: rest) fs
              = ⟨none, selectSupportedModelForce st (fs.headD []), fs.tail, 0⟩)
          ∧ ((selectSupportedModelForce st (fs.headD [])).model_id ≠ st.model_id →
            make_request prompt mt st (GenResponse.httpErr status body :: rest) fs
              = ⟨(make_request prompt mt (selectSupportedModelForce st (fs.headD []))
                    rest fs.tail).text,
                 (make_request prompt mt (selectSupportedModelForce st (fs.headD []))
                    rest fs.tail).state,
                 (make_request prompt mt (selectSupportedModelForce st (fs.headD []))
                    rest fs.tail).refreshesLeft,
                 (make_request prompt mt (selectSupportedModelForce st (fs.headD []))
                    rest fs.tail).retries + 1⟩))) := by
  constructor
  · intro rs
    induction rs with
    | nil =>
      intro st fs
      rw [make_request.eq_def]
      dsimp only
      split
      · exact Nat.le_refl _
      · split
        · exact Nat.le_refl _
        · exact Nat.le_refl _
    | cons r rest ih =>
      intro st fs
      rw [make_request.eq_def]
      dsimp only
      split
      · exact Nat.zero_le _
      · split
        · exact Nat.zero_le _
        · cases r with
          | ok t => exact Nat.zero_le _
          | err => exact Nat.zero_le _
          | httpErr status body =>
            dsimp only
            by_cases hm : isModelNotSupported status body = true
            · rw [if_pos hm]
              by_cases hid : ((selectSupportedModelForce st (fs.headD [])).model_id
                  == st.model_id) = true
              · rw [if_pos hid]
                exact Nat.zero_le _
              · rw [if_neg hid]
                have hcount : (GenResponse.httpErr status body :: rest).countP isMNSResponse
                    = rest.countP isMNSResponse + 1 := by
                  rw [List.countP_cons]
                  simp [isMNSResponse, hm]
                rw [hcount]
                exact Nat.add_le_add_right (ih _ _) 1
            · rw [if_neg hm]
              exact Nat.zero_le _
  · intro st status body rest fs htok hproj hmns
    constructor
    · intro hid
      rw [make_request.eq_def]
      dsimp only
      rw [if_neg (by rw [htok]; exact fun hx => Bool.noConfusion hx)]
      rw [if_neg (by rw [hproj]; exact fun hx => Bool.noConfusion hx)]
      rw [if_pos hmns]
      rw [if_pos (by rw [hid]; exact beq_self_eq_true _)]
    · intro hid
      rw [make_request.eq_def]
      dsimp only
      rw [if_neg (by rw [htok]; exact fun hx => Bool.noConfusion hx)]
      rw [if_neg (by rw [hproj]; exact fun hx => Bool.noConfusion hx)]
      rw [if_pos hmns]
      rw [if_neg (by
        intro hx
        exact hid (by simpa using hx))]

/-- C1 witness: on a rejection whose forced refresh leaves the identifier
unchanged, the call returns the none outcome with no retry. -/
theorem c1_recovery_contract_witness :
    make_request "p" 500 gwLive
        [GenResponse.httpErr 404 "model_not_supported"] [["ibm/granite-3-8b-instruct"]]
      = ⟨none,
         selectSupportedModelForce gwLive
           (([["ibm/granite-3-8b-instruct"]] : List (List String)).headD []),
         ([["ibm/granite-3-8b-instruct"]] : List (List String)).tail, 0⟩ :=
  ((c1_recovery_contract "p" 500).2 gwLive 404 "model_not_supported" []
    [["ibm/granite-3-8b-instruct"]] (by decide) (by decide) (by decide)).1 (by decide)

/-- C1 counterexample: two successive model-not-supported rejections whose
catalog refreshes each change the selected identifier drive two complete
re-selection-and-retry cycles inside a single caller-initiated generate
call, where the claim allows at most one. -/
theorem c1_recovery_counterexample :
    (make_request "p" 500 gwLive
        [mnsResponse, mnsResponse, GenResponse.ok "hi"]
        [["ibm/granite-3-3-8b-instruct"], ["ibm/granite-3-8b-instruct"]]).retries = 2
    ∧ (make_request "p" 500 gwLive
        [mnsResponse, mnsResponse, GenResponse.ok "hi"]
        [["ibm/granite-3-3-8b-instruct"], ["ibm/granite-3-8b-instruct"]]).text
      = some "hi" := by
  decide

/-- A falsy generation outcome is replaced by the fallback; otherwise the
returned text is exactly the generated one. -/
theorem orElseStr_cases (r : Option String) (fb : String) :
    orElseStr r fb = fb ∨ r = some (orElseStr r fb) := by
  cases r with
  | none => exact Or.inl rfl
  | some t =>
    by_cases h : (t == "") = true
    · exact Or.inl (by simp [orElseStr, h])
    · have h2 : (t == "") = false := by
        cases hb : t == ""
        · rfl
        · exact absurd hb h
      exact Or.inr (by simp [orElseStr, h2])

/-- With a nonempty fallback the substituted result is never the empty
string. -/
theorem orElseStr_ne_empty (r : Option String) (fb : String) (hfb : fb ≠ "") :
    orElseStr r fb ≠ "" := by
  cases r with
  | none => simpa [orElseStr] using hfb
  | some t =>
    by_cases h : (t == "") = true
    · simpa [orElseStr, h] using hfb
    · have h2 : (t == "") = false := by
        cases hb : t == ""
        · rfl
        · exact absurd hb h
      simp only [orElseStr, h2, Bool.false_eq_true, if_false]
      intro he
      rw [he] at h2
      simp at h2

/-- The topic-templated eco-tip fallback is never the empty string. -/
theorem ecoTipFallback_ne_empty (topic : String) : ecoTipFallback topic ≠ "" := by
  intro h
  have hlen : (ecoTipFallback topic).length = 0 := by rw [h]; rfl
  simp only [ecoTipFallback, String.length_append] at hlen
  have h1 : ("Here are some general tips for " : String).length = 31 := by decide
  omega

/-- C7: each convenience wrapper returns either the text produced by the
underlying generate call or its own canned fallback string; it is a total
function of the gateway state and environment trace — it never surfaces the
raw none outcome nor the empty sentinel and never raises. -/
theorem c7_wrappers_fallback (st : GW) (text : String) (rs : List GenResponse)
    (fs : List (List String)) :
    (ask_granite st text rs fs = askFallback
      ∨ (make_request (askPrompt text) 500 st rs fs).text
          = some (ask_granite st text rs fs))
    ∧ ask_granite st text rs fs ≠ ""
    ∧ (generate_summary st text rs fs = summaryFallback
      ∨ (make_request (summaryPrompt text) 300 st rs fs).text
          = some (generate_summary st text rs fs))
    ∧ generate_summary st text rs fs ≠ ""
    ∧ (generate_eco_tip st text rs fs = ecoTipFallback text
      ∨ (make_request (ecoTipPrompt text) 200 st rs fs).text
          = some (generate_eco_tip st text rs fs))
    ∧ generate_eco_tip st text rs fs ≠ "" :=
  ⟨orElseStr_cases _ _, orElseStr_ne_empty _ _ (by decide),
   orElseStr_cases _ _, orElseStr_ne_empty _ _ (by decide),
   orElseStr_cases _ _, orElseStr_ne_empty _ _ (ecoTipFallback_ne_empty text)⟩

/-- C7 witness: a concrete run against an empty environment trace, where
every wrapper substitutes its canned fallback and returns nonempty text. -/
theorem c7_wrappers_witness :
    (ask_granite gwLive "q" [] [] = askFallback
      ∨ (make_request (askPrompt "q") 500 gwLive [] []).text
          = some (ask_granite gwLive "q" [] []))
    ∧ ask_granite gwLive "q" [] [] ≠ "" :=
  ⟨(c7_wrappers_fallback gwLive "q" [] []).1, (c7_wrappers_fallback gwLive "q" [] []).2.1⟩

/-- C8 witness: a concrete malformed token is characterised as invalid. -/
theorem c8_verify_token_witness :
    (∃ p, verify_token (Jwt.malformed "garbage") 0 = some p)
      ↔ ∃ p, Jwt.malformed "garbage" = Jwt.signed p (sign p SECRET_KEY) ∧ 0 ≤ p.exp :=
  c8_verify_token_characterisation (Jwt.malformed "garbage") 0

/-- C10 witness: the empty-set gate admits the seeded USER subject. -/
theorem c10_empty_allowed_set_witness :
    require_any_role [] alice = DepResult.ok alice :=
  c10_empty_allowed_set_allows_all alice

end SmartCity
